import Mathlib

/-!
Shallow embedding of the duel_core engine (src/engine/combat.py,
src/engine/tick_manager.py, src/engine/rules.py, src/entities/player.py)
and proofs about the spec's claims.

Python integers are modelled as `ℤ`, Python floats as exact `ℚ`,
`random.random()` / `random.randint()` as reads from an abstract entropy
stream advanced by one index per call.
-/

namespace DuelCore

/-- Abstract entropy source: the deterministic stream produced by Python's
seeded global `random` module.  `floats i` is the value of the `i`-th RNG
call when that call is `random.random()`; `ints i` is the raw draw used
when the `i`-th call is `random.randint`. -/
structure Rng where
  floats : Nat → ℚ
  ints : Nat → Nat

/-- Python `str.startswith`, computed on the underlying character lists
(`String.startsWith` itself is opaque to compile-time evaluation). -/
def pyStartsWith (s pre : String) : Bool :=
  pre.data.isPrefixOf s.data

/-- Python `int()` applied to a float: truncation toward zero. -/
def pyInt (q : ℚ) : ℤ :=
  if q < 0 then -(Int.floor (-q)) else Int.floor q

/-- Python `random.randint(lo, hi)`: one draw from the stream, mapped into
`[lo, hi]` (used only with `lo ≤ hi`). -/
def pyRandint (r : Rng) (i : Nat) (lo hi : ℤ) : ℤ :=
  lo + (r.ints i : ℤ) % (hi - lo + 1)

/-- The nine stat keys of `Player.base_stats` / `effective_stats`. -/
structure Stats where
  hp : ℤ
  attack : ℤ
  strength : ℤ
  defense : ℤ
  magic : ℤ
  ranged : ℤ
  magicDefense : ℤ
  rangedDefense : ℤ
  attackSpeed : ℤ
deriving DecidableEq, Repr

/-- One entry of an item's `special_effects` list: `{"effect": ..., "value": ...}`. -/
structure SpecialEffect where
  effect : String
  value : ℚ
deriving DecidableEq, Repr

/-- An equippable item (post-construction state: name, slot value string,
sparse stat deltas, special effects), from src/duelsim/items/item.py. -/
structure Item where
  name : String
  slot : String
  stats : List (String × ℤ)
  specialEffects : List SpecialEffect
deriving DecidableEq, Repr

/-- An action dictionary: `{"type": ..., "execute_on": ..., ...}`.
The attack target (a Python object reference) is modelled as an index into
the tick manager's player list; `none` models a missing `"target"` key. -/
structure Action where
  type : String
  executeOn : ℤ
  target : Option Nat
  destination : ℤ × ℤ
  healAmount : ℤ
deriving DecidableEq, Repr

/-- Combatant state, from src/entities/player.py `Player`. -/
structure Player where
  name : String
  maxHp : ℤ
  hp : ℤ
  attack : ℤ
  strength : ℤ
  defense : ℤ
  position : ℤ × ℤ
  weaponSpeed : ℤ
  cooldown : ℤ
  actionQueue : List Action
  nextAction : Option Action
  equipment : List (String × Option Item)
  baseStats : Stats
  effectiveStats : Stats
deriving DecidableEq, Repr

/-- Add one `(stat, value)` delta from an item's stat dict to a stats record;
keys outside the nine known stats are ignored (`if stat in self.effective_stats`). -/
def addStat (s : Stats) (kv : String × ℤ) : Stats :=
  match kv.1 with
  | "hp" => { s with hp := s.hp + kv.2 }
  | "attack" => { s with attack := s.attack + kv.2 }
  | "strength" => { s with strength := s.strength + kv.2 }
  | "defense" => { s with defense := s.defense + kv.2 }
  | "magic" => { s with magic := s.magic + kv.2 }
  | "ranged" => { s with ranged := s.ranged + kv.2 }
  | "magic_defense" => { s with magicDefense := s.magicDefense + kv.2 }
  | "ranged_defense" => { s with rangedDefense := s.rangedDefense + kv.2 }
  | "attack_speed" => { s with attackSpeed := s.attackSpeed + kv.2 }
  | _ => s

/-- `base_stats.copy()` plus every equipped item's stat bonuses, in slot order. -/
def computeEffectiveStats (base : Stats) (equipment : List (String × Option Item)) : Stats :=
  equipment.foldl
    (fun acc slotItem =>
      match slotItem.2 with
      | some item => item.stats.foldl addStat acc
      | none => acc)
    base

/-- `Player._update_effective_stats`: recompute `effective_stats` from base
stats and equipment, then refresh `max_hp`, cap `hp`, refresh `weapon_speed`. -/
def update_effective_stats (p : Player) : Player :=
  let es := computeEffectiveStats p.baseStats p.equipment
  { p with
    effectiveStats := es
    maxHp := es.hp
    hp := min p.hp es.hp
    weaponSpeed := es.attackSpeed }

/-- Write a value into an equipment slot (Python dict assignment to an
existing key: value replaced, insertion order kept). -/
def setSlot (eq : List (String × Option Item)) (slot : String) (v : Option Item) :
    List (String × Option Item) :=
  eq.map (fun kv => if kv.1 = slot then (kv.1, v) else kv)

/-- `Player.equip_item`: place the item in its slot (if the slot key exists)
and recompute effective stats; returns the updated player and the `True`/`False`
result. -/
def equip_item (p : Player) (item : Item) : Player × Bool :=
  if (p.equipment.lookup item.slot).isSome then
    (update_effective_stats { p with equipment := setSlot p.equipment item.slot (some item) }, true)
  else
    (p, false)

/-- `Player.unequip_item`: clear the slot (if present and non-empty) and
recompute effective stats; returns the updated player and the removed item. -/
def unequip_item (p : Player) (slot : String) : Player × Option Item :=
  match p.equipment.lookup slot with
  | some (some item) =>
      (update_effective_stats { p with equipment := setSlot p.equipment slot none }, some item)
  | _ => (p, none)

/-- `Player.get_special_effects`: concatenation of every equipped item's
special-effect list, in slot order. -/
def get_special_effects (p : Player) : List SpecialEffect :=
  p.equipment.foldl
    (fun acc slotItem =>
      match slotItem.2 with
      | some item => acc ++ item.specialEffects
      | none => acc)
    []

/-- `Player.update_cooldowns`: decrement a positive cooldown by one. -/
def update_cooldowns (p : Player) : Player :=
  if p.cooldown > 0 then { p with cooldown := p.cooldown - 1 } else p

/-- The loop body of `Player.is_action_ready`: pop the first queue entry with
`execute_on <= current_tick`, keeping every other entry in order. -/
def popFirstDue (queue : List Action) (t : ℤ) : Option Action × List Action :=
  match queue with
  | [] => (none, [])
  | a :: rest =>
      if a.executeOn ≤ t then (some a, rest)
      else
        let r := popFirstDue rest t
        (r.1, a :: r.2)

/-- `Player.is_action_ready`: pop the earliest-inserted due action into
`next_action`, returning whether one was found. -/
def is_action_ready (p : Player) (currentTick : ℤ) : Bool × Player :=
  match popFirstDue p.actionQueue currentTick with
  | (some a, rest) => (true, { p with actionQueue := rest, nextAction := some a })
  | (none, _) => (false, p)

/-- The default equipment mapping: all eight `ItemSlot` values, empty. -/
def emptyEquipment : List (String × Option Item) :=
  [("weapon", none), ("head", none), ("body", none), ("legs", none),
   ("hands", none), ("feet", none), ("ring", none), ("amulet", none)]

/-- `Player.__init__` with explicit name/hp/attack/strength/defense and
default keyword arguments (magic = ranged = 1, derived defenses, speed 4). -/
def player_init (name : String) (hp attack strength defense : ℤ) : Player :=
  let base : Stats :=
    { hp := hp, attack := attack, strength := strength, defense := defense,
      magic := 1, ranged := 1,
      magicDefense := defense.fdiv 2, rangedDefense := defense.fdiv 2,
      attackSpeed := 4 }
  update_effective_stats
    { name := name, maxHp := hp, hp := hp, attack := attack, strength := strength,
      defense := defense, position := (0, 0), weaponSpeed := 4, cooldown := 0,
      actionQueue := [], nextAction := none, equipment := emptyEquipment,
      baseStats := base, effectiveStats := base }

/-- Result of `resolve_attack`: the returned damage, both (possibly mutated)
players, the console messages printed, and the advanced RNG index. -/
structure AttackResult where
  damage : ℤ
  attacker : Player
  defender : Player
  printed : List String
  rngIdx : Nat
deriving DecidableEq, Repr

/-- `combat.resolve_attack` (src/engine/combat.py lines 13-50): range check by
Manhattan distance, flat 0.9 accuracy roll, strength-based damage with 0-5
variance, defense reduction `defense / 400`, minimum 3 on a hit; subtracts the
damage from the defender's hp (no floor at 0) and sets the attacker's cooldown
to `weapon_speed`.  Returns 0 with no state change when out of range or when
the cooldown is nonzero. -/
def resolve_attack (rng : Rng) (i : Nat) (attacker defender : Player) : AttackResult :=
  let distance := |attacker.position.1 - defender.position.1| +
    |attacker.position.2 - defender.position.2|
  if distance > 1 then
    { damage := 0, attacker := attacker, defender := defender,
      printed := [attacker.name ++ " is too far from " ++ defender.name ++ " to attack"],
      rngIdx := i }
  else if attacker.cooldown = 0 then
    let accuracy_roll := rng.floats i < 9 / 10
    let base_damage := attacker.strength.fdiv 7
    let variance := pyRandint rng (i + 1) 0 5
    let max_hit := base_damage + variance
    let defense_factor := (defender.defense : ℚ) / 400
    let damage := if accuracy_roll then max 3 (pyInt ((max_hit : ℚ) * (1 - defense_factor))) else 0
    { damage := damage,
      attacker := { attacker with cooldown := attacker.weaponSpeed },
      defender := { defender with hp := defender.hp - damage },
      printed := [if damage > 0 then
          attacker.name ++ " hits " ++ toString damage ++ " on " ++ defender.name
        else
          attacker.name ++ " misses " ++ defender.name],
      rngIdx := i + 2 }
  else
    { damage := 0, attacker := attacker, defender := defender, printed := [], rngIdx := i }

/-- `combat.calculate_base_damage` (lines 62-80): hit chance
`min(0.9, attack / (attack + defense))` over effective stats, miss iff the
uniform draw is greater than it; on a hit, damage is
`randint(0, int(1 + strength / 10))`.  Returns the damage and the advanced
RNG index. -/
def calculate_base_damage (rng : Rng) (i : Nat) (attacker defender : Player) : ℤ × Nat :=
  let attack := attacker.effectiveStats.attack
  let strength := attacker.effectiveStats.strength
  let defense := defender.effectiveStats.defense
  let hit_chance := min (9 / 10 : ℚ) ((attack : ℚ) / ((attack : ℚ) + (defense : ℚ)))
  if rng.floats i > hit_chance then
    (0, i + 1)
  else
    let max_hit : ℚ := 1 + (strength : ℚ) / 10
    (pyRandint rng (i + 1) 0 (pyInt max_hit), i + 2)

/-- A structured entry of `effects_triggered` (type, actor, optional target,
optional numeric payload, message). -/
structure Triggered where
  type : String
  actor : String
  target : Option String
  amount : Option ℤ
  message : String
deriving DecidableEq, Repr

/-- Modelled from the spec: the scheduler-owned delayed effect
`ScheduledEffect {target, kind, magnitude, trigger_tick}` (spec §3).
`combat.apply_special_effects` schedules poison through
`tick_manager.schedule_event`, which is referenced there but defined nowhere
in the repository (the spec's §9 notes this latent defect); scheduling is
modelled as appending one of these entries, owned by the scheduler, per the
spec's words.  `source` carries the attacking entity's name, captured by the
scheduled closure for the poison log message. -/
structure ScheduledEffect where
  target : String
  source : String
  kind : String
  magnitude : ℤ
  triggerTick : ℤ
deriving DecidableEq, Repr

/-- Running state of the special-effects pipeline: current damage, both
players, triggered-effect entries, scheduled delayed effects, RNG index. -/
structure EffectsState where
  damage : ℤ
  attacker : Player
  defender : Player
  triggered : List Triggered
  scheduled : List ScheduledEffect
  rngIdx : Nat
deriving DecidableEq, Repr

/-- One iteration of the offensive effect loop of
`combat.apply_special_effects` (lines 90-148): critical strike, life steal,
double strike, poison scheduling.  RNG is consumed exactly where the Python
short-circuit evaluation consumes it. -/
def offensiveStep (rng : Rng) (currentTick : ℤ) (s : EffectsState) (e : SpecialEffect) :
    EffectsState :=
  if e.effect = "critical_chance" then
    let roll := rng.floats s.rngIdx
    let s := { s with rngIdx := s.rngIdx + 1 }
    if roll < e.value / 100 then
      { s with
        damage := s.damage * 2
        triggered := s.triggered ++
          [{ type := "critical_hit", actor := s.attacker.name,
             target := some s.defender.name, amount := none,
             message := s.attacker.name ++ " lands a critical hit!" }] }
    else s
  else if e.effect = "life_steal" ∧ s.damage > 0 then
    let heal_amount := pyInt ((s.damage : ℚ) * e.value / 100)
    if heal_amount > 0 then
      { s with
        attacker := { s.attacker with
          hp := min s.attacker.maxHp (s.attacker.hp + heal_amount) }
        triggered := s.triggered ++
          [{ type := "life_steal", actor := s.attacker.name, target := none,
             amount := some heal_amount,
             message := s.attacker.name ++ " steals " ++ toString heal_amount ++ " life!" }] }
    else s
  else if e.effect = "double_strike" then
    let roll := rng.floats s.rngIdx
    let s := { s with rngIdx := s.rngIdx + 1 }
    if roll < e.value / 100 then
      let r := calculate_base_damage rng s.rngIdx s.attacker s.defender
      { s with
        damage := s.damage + r.1
        rngIdx := r.2
        triggered := s.triggered ++
          [{ type := "double_strike", actor := s.attacker.name,
             target := some s.defender.name, amount := some r.1,
             message := s.attacker.name ++ " strikes twice in rapid succession!" }] }
    else s
  else if e.effect = "poison_chance" then
    let roll := rng.floats s.rngIdx
    let s := { s with rngIdx := s.rngIdx + 1 }
    if roll < e.value / 100 then
      let poison_damage := max 1 (pyInt ((s.damage : ℚ) * (1 / 5)))
      let poison_duration : ℤ := 3
      { s with
        scheduled := s.scheduled ++
          (List.range 3).map (fun k =>
            { target := s.defender.name, source := s.attacker.name,
              kind := "poison", magnitude := poison_damage,
              triggerTick := currentTick + (k : ℤ) + 1 })
        triggered := s.triggered ++
          [{ type := "poison", actor := s.attacker.name,
             target := some s.defender.name, amount := some poison_duration,
             message := s.defender.name ++ " is poisoned!" }] }
    else s
  else s

/-- The defensive effect loop of `combat.apply_special_effects`
(lines 150-179): dodge (zeroes damage and breaks out of the loop) and damage
reflection (unclamped hp loss on the attacker). -/
def applyDefensive (rng : Rng) (s : EffectsState) : List SpecialEffect → EffectsState
  | [] => s
  | e :: rest =>
    if e.effect = "dodge_chance" then
      let roll := rng.floats s.rngIdx
      let s := { s with rngIdx := s.rngIdx + 1 }
      if roll < e.value / 100 then
        { s with
          damage := 0
          triggered := s.triggered ++
            [{ type := "dodge", actor := s.defender.name, target := none,
               amount := none,
               message := s.defender.name ++ " dodges the attack!" }] }
      else applyDefensive rng s rest
    else if e.effect = "damage_reflection" ∧ s.damage > 0 then
      let reflect_damage := pyInt ((s.damage : ℚ) * e.value / 100)
      if reflect_damage > 0 then
        applyDefensive rng
          { s with
            attacker := { s.attacker with hp := s.attacker.hp - reflect_damage }
            triggered := s.triggered ++
              [{ type := "damage_reflection", actor := s.defender.name,
                 target := some s.attacker.name, amount := some reflect_damage,
                 message := s.defender.name ++ " reflects " ++ toString reflect_damage ++
                   " damage back to " ++ s.attacker.name ++ "!" }] }
          rest
      else applyDefensive rng s rest
    else applyDefensive rng s rest

/-- `combat.apply_special_effects` (lines 82-181): offensive pipeline over the
attacker's equipment effects, then defensive pipeline over the defender's. -/
def apply_special_effects (rng : Rng) (i : Nat) (attacker defender : Player)
    (base_damage : ℤ) (currentTick : ℤ) : EffectsState :=
  let s0 : EffectsState :=
    { damage := base_damage, attacker := attacker, defender := defender,
      triggered := [], scheduled := [], rngIdx := i }
  let s1 := (get_special_effects attacker).foldl (offensiveStep rng currentTick) s0
  applyDefensive rng s1 (get_special_effects s1.defender)

/-- `combat.calculate_damage` (lines 52-60): base damage then the
special-effects pipeline. -/
def calculate_damage (rng : Rng) (i : Nat) (attacker defender : Player)
    (currentTick : ℤ) : EffectsState :=
  let r := calculate_base_damage rng i attacker defender
  apply_special_effects rng r.2 attacker defender r.1 currentTick

/-- `combat.apply_poison_damage` (lines 183-198): skip if the target is
already dead, otherwise subtract the poison damage (no floor at 0) and emit
the poison log message. -/
def apply_poison_damage (attacker defender : Player) (damage : ℤ) :
    Player × List String :=
  if defender.hp ≤ 0 then (defender, [])
  else
    ({ defender with hp := defender.hp - damage },
     [defender.name ++ " takes " ++ toString damage ++ " poison damage from " ++
       attacker.name ++ "!"])

/-- One event-log entry: `{"tick": ..., "message": ...}`. -/
structure Event where
  tick : ℤ
  message : String
deriving DecidableEq, Repr

/-- `TickManager` state: current tick, active flag, registered players (in
registration order), the append-only event log, and the RNG cursor. -/
structure TickState where
  currentTick : ℤ
  duelActive : Bool
  players : List Player
  events : List Event
  rngIdx : Nat
deriving DecidableEq, Repr

/-- `TickManager.log_event`: append a tick-stamped message. -/
def log_event (st : TickState) (msg : String) : TickState :=
  { st with events := st.events ++ [{ tick := st.currentTick, message := msg }] }

/-- Python `str` of a coordinate tuple, as it appears in move log messages. -/
def posString (d : ℤ × ℤ) : String :=
  "(" ++ toString d.1 ++ ", " ++ toString d.2 ++ ")"

/-- `TickManager.execute_action` (src/engine/tick_manager.py lines 32-52),
acting on the player at index `i`.  An attack with a missing target raises
(`action.get("target")` is `None` and `resolve_attack` dereferences it);
a move sets the position unconditionally; eating heals capped at `max_hp`;
any other action type falls through silently. -/
def execute_action (rng : Rng) (st : TickState) (i : Nat) (action : Action) :
    Except String TickState :=
  match st.players[i]? with
  | none => .error "unregistered player"
  | some player =>
    if action.type = "attack" ∨ pyStartsWith action.type "attack_" then
      match action.target with
      | none => .error "AttributeError: NoneType object has no attribute position"
      | some j =>
        match st.players[j]? with
        | none => .error "unregistered target"
        | some target =>
          let r := resolve_attack rng st.rngIdx player target
          let st := { st with
            players := (st.players.set i r.attacker).set j r.defender,
            rngIdx := r.rngIdx }
          .ok (log_event st (player.name ++ " attacks " ++ target.name ++ " for " ++
            toString r.damage ++ " damage"))
    else if action.type = "move" then
      .ok (log_event
        { st with players := st.players.set i { player with position := action.destination } }
        (player.name ++ " moved to " ++ posString action.destination))
    else if action.type = "eat" then
      let old_hp := player.hp
      let new_hp := min player.maxHp (player.hp + action.healAmount)
      .ok (log_event
        { st with players := st.players.set i { player with hp := new_hp } }
        (player.name ++ " healed for " ++ toString (new_hp - old_hp)))
    else .ok st

/-- `TickManager.process_actions` (lines 24-30) for the player at index `i`:
pop a due action via `is_action_ready`, execute it, then clear `next_action`. -/
def process_actions (rng : Rng) (st : TickState) (i : Nat) : Except String TickState :=
  match st.players[i]? with
  | none => .ok st
  | some p =>
    match is_action_ready p st.currentTick with
    | (true, p') =>
      match p'.nextAction with
      | some action =>
        let st1 := { st with players := st.players.set i p' }
        match execute_action rng st1 i action with
        | .ok st2 =>
          .ok { st2 with players :=
            match st2.players[i]? with
            | some q => st2.players.set i { q with nextAction := none }
            | none => st2.players }
        | .error e => .error e
      | none => .ok st
    | (false, _) => .ok st

/-- `[p for p in self.players if p != player][0]`: the first registered player
other than the one at index `i`. -/
def opponent_of (players : List Player) (i : Nat) : Option Player :=
  ((players.enum.filter (fun q => q.1 ≠ i)).map (fun q => q.2)).head?

/-- Python `l[-n:]` on the event log. -/
def lastN (n : Nat) (l : List Event) : List Event :=
  l.drop (l.length - n)

/-- The health-milestone logging block of `TickManager.update_game_state`
(lines 60-78) for the player at index `i`. -/
def milestone_step (st : TickState) (i : Nat) : Except String TickState :=
  match st.players[i]? with
  | none => .ok st
  | some p =>
    match opponent_of st.players i with
    | none => .error "IndexError: list index out of range"
    | some opp =>
      let st := if p.hp ≤ 50 ∧ p.hp > 40 ∧
          ¬ st.events.any (fun e => pyStartsWith e.message (p.name ++ " is at half")) then
          log_event st (p.name ++ " is at half health!")
        else st
      let st := if p.hp ≤ 25 ∧ p.hp > 0 then
          if p.hp ≤ 10 then
            if ¬ (lastN 10 st.events).any
                (fun e => pyStartsWith e.message (p.name ++ " is critically")) then
              log_event st (p.name ++ " is critically wounded (" ++ toString p.hp ++ " HP)!")
            else st
          else if ¬ (lastN 10 st.events).any
              (fun e => pyStartsWith e.message (p.name ++ " is badly")) then
            log_event st (p.name ++ " is badly wounded!")
          else st
        else st
      let st := if p.hp - opp.hp ≥ 30 ∧
          ¬ (lastN 15 st.events).any
            (fun e => pyStartsWith e.message (p.name ++ " has a significant")) then
          log_event st (p.name ++ " has a significant health advantage!")
        else st
      .ok st

/-- The win-condition block of `TickManager.update_game_state` (lines 80-85)
for the player at index `i`: any player at hp ≤ 0 ends the duel with a defeat
event naming the opponent. -/
def win_check_step (st : TickState) (i : Nat) : Except String TickState :=
  match st.players[i]? with
  | none => .ok st
  | some p =>
    if p.hp ≤ 0 then
      match opponent_of st.players i with
      | none => .error "IndexError: list index out of range"
      | some opp =>
        .ok { log_event st (opp.name ++ " has defeated " ++ p.name ++ "!") with
          duelActive := false }
    else .ok st

/-- `TickManager.update_game_state` (lines 54-85): decrement cooldowns, log
health milestones, check win conditions. -/
def update_game_state (st : TickState) : Except String TickState := do
  let st := { st with players := st.players.map update_cooldowns }
  let st ← (List.range st.players.length).foldlM milestone_step st
  (List.range st.players.length).foldlM win_check_step st

/-- `TickManager.process_tick` (lines 15-22): process each registered player's
actions in registration order, then update the game state. -/
def process_tick (rng : Rng) (st : TickState) : Except String TickState := do
  let st ← (List.range st.players.length).foldlM (fun s i => process_actions rng s i) st
  update_game_state st

/-- The `RuleSet` configuration after defaulting (src/engine/rules.py lines
2-15), with `arena_size` resolved to width/height at its use site. -/
structure Rules where
  allowMelee : Bool
  allowRanged : Bool
  allowMagic : Bool
  noFood : Bool
  noMovement : Bool
  arenaWidth : ℤ
  arenaHeight : ℤ
deriving DecidableEq, Repr

/-- An entry of the list returned by `get_legal_actions`. -/
structure LegalAction where
  type : String
  destination : Option (ℤ × ℤ)
  healAmount : Option ℤ
deriving DecidableEq, Repr

/-- `RuleSet.is_action_allowed` (lines 17-30). -/
def is_action_allowed (r : Rules) (action_type : String) : Bool :=
  if action_type = "attack_melee" ∧ ¬ r.allowMelee then false
  else if action_type = "attack_ranged" ∧ ¬ r.allowRanged then false
  else if action_type = "attack_magic" ∧ ¬ r.allowMagic then false
  else if action_type = "eat" ∧ r.noFood then false
  else if action_type = "move" ∧ r.noMovement then false
  else true

/-- `RuleSet.get_legal_actions` (lines 32-73) for the player at index `i`:
attacks gated on cooldown and the allow flags, cardinal moves filtered to the
arena bounds and to unoccupied cells, and a capped heal when food is allowed. -/
def get_legal_actions (r : Rules) (players : List Player) (i : Nat) : List LegalAction :=
  match players[i]? with
  | none => []
  | some p =>
    let attacks :=
      if p.cooldown = 0 then
        (if r.allowMelee then [⟨"attack_melee", none, none⟩] else []) ++
        (if r.allowRanged then [⟨"attack_ranged", none, none⟩] else []) ++
        (if r.allowMagic then [⟨"attack_magic", none, none⟩] else [])
      else []
    let moves :=
      if ¬ r.noMovement then
        let other_positions :=
          (players.enum.filter (fun q => q.1 ≠ i)).map (fun q => q.2.position)
        [((0 : ℤ), (1 : ℤ)), (1, 0), (0, -1), (-1, 0)].filterMap (fun d =>
          let nx := p.position.1 + d.1
          let ny := p.position.2 + d.2
          if 0 ≤ nx ∧ nx < r.arenaWidth ∧ 0 ≤ ny ∧ ny < r.arenaHeight ∧
              (nx, ny) ∉ other_positions then
            some ⟨"move", some (nx, ny), none⟩
          else none)
      else []
    let eats :=
      if ¬ r.noFood ∧ p.hp < p.maxHp then
        [⟨"eat", none, some (min 25 (p.maxHp - p.hp))⟩]
      else []
    attacks ++ moves ++ eats

/-- External action submission: `Player.add_action` appends to the queue of
the player at index `i`. -/
def submit_action (st : TickState) (i : Nat) (a : Action) : TickState :=
  match st.players[i]? with
  | some p =>
      { st with players := st.players.set i { p with actionQueue := p.actionQueue ++ [a] } }
  | none => st

/-- The driver loop of src/main.py `run_duel_simulation` (lines 54-87) with
the external action-selection collaborator abstracted as a pure `policy`:
while the duel is active, submit the chosen actions, set the tick counter,
process the tick, advance. -/
def run_duel (rng : Rng) (policy : ℤ → TickState → List (Nat × Action)) :
    Nat → ℤ → TickState → Except String TickState
  | 0, _, st => .ok st
  | fuel + 1, tick, st =>
    if st.duelActive then
      let st := (policy tick st).foldl (fun s pa => submit_action s pa.1 pa.2) st
      let st := { st with currentTick := tick }
      match process_tick rng st with
      | .ok st2 => run_duel rng policy fuel (tick + 1) st2
      | .error e => .error e
    else .ok st

/-! ### Concrete scenario data used by witnesses and counterexamples -/

/-- An attack action targeting the player registered at index 1, due at tick 0. -/
def atkB : Action :=
  { type := "attack", executeOn := 0, target := some 1, destination := (0, 0), healAmount := 0 }

/-- An attack action whose `"target"` key is missing. -/
def atkNone : Action :=
  { type := "attack", executeOn := 0, target := none, destination := (0, 0), healAmount := 0 }

/-- Scenario attacker: strength 140 (so a clean hit deals `140 // 7 = 20`),
facing a defender with defense 0, with one due attack queued. -/
def aliceB : Player :=
  { player_init "Alice" 99 99 140 0 with position := (0, 0), actionQueue := [atkB] }

/-- Scenario B defender: max_hp 99 but current hp 5, adjacent to the attacker. -/
def bobB : Player :=
  { player_init "Bob" 99 99 99 0 with position := (0, 1), hp := 5 }

/-- Entropy stream whose float draws are all 1/2 (a hit against the flat 0.9
accuracy) and whose raw integer draws are all 0 (variance 0). -/
def rngB : Rng := { floats := fun _ => 1 / 2, ints := fun _ => 0 }

/-- Scenario B initial state: tick 0, both players registered, empty log. -/
def stB : TickState :=
  { currentTick := 0, duelActive := true, players := [aliceB, bobB], events := [], rngIdx := 0 }

/-- Entropy stream with all float draws 7/10: under the flat 0.9 accuracy this
hits, while the documented `min(0.9, attack/(attack+defense))` formula at equal
stats (hit chance 1/2) says miss. -/
def rngC3 : Rng := { floats := fun _ => 7 / 10, ints := fun _ => 0 }

/-- Scenario A attacker: identical stats {attack 99, strength 99, defense 99}. -/
def a3 : Player := { player_init "Alice" 99 99 99 99 with position := (0, 0) }

/-- Scenario A defender: identical stats, adjacent. -/
def d3 : Player := { player_init "Bob" 99 99 99 99 with position := (0, 1) }

/-- A weapon-slot item giving +5 attack. -/
def itemA : Item :=
  { name := "Sword A", slot := "weapon", stats := [("attack", 5)], specialEffects := [] }

/-- A second weapon-slot item giving +3 attack. -/
def itemB8 : Item :=
  { name := "Sword B", slot := "weapon", stats := [("attack", 3)], specialEffects := [] }

/-- A freshly constructed player with empty equipment. -/
def p0 : Player := player_init "A" 99 70 70 70

/-- `p0` with Sword A equipped (effective attack 75). -/
def p1 : Player := (equip_item p0 itemA).1

/-- `p1` after equipping Sword B into the occupied weapon slot (Sword A is
silently replaced; effective attack 73). -/
def p2 : Player := (equip_item p1 itemB8).1

/-- `p2` after unequipping the weapon slot (effective attack back to 70, not
to the pre-equip 75). -/
def p3 : Player := (unequip_item p2 "weapon").1

/-- A weapon granting `poison_chance: 100`. -/
def poisonItem : Item :=
  { name := "Venom", slot := "weapon", stats := [],
    specialEffects := [{ effect := "poison_chance", value := 100 }] }

/-- An attacker wielding the poison weapon. -/
def aP : Player := (equip_item (player_init "Alice" 99 99 99 99) poisonItem).1

/-- A defender with no equipment. -/
def dP : Player := player_init "Bob" 99 99 99 99

/-- Two distinct move actions both due at tick 0. -/
def act1 : Action :=
  { type := "move", executeOn := 0, target := none, destination := (1, 0), healAmount := 0 }

/-- See `act1`. -/
def act2 : Action :=
  { type := "move", executeOn := 0, target := none, destination := (2, 0), healAmount := 0 }

/-- A player whose queue holds two actions that are both due on tick 0. -/
def p7 : Player := { player_init "A" 99 70 70 70 with actionQueue := [act1, act2] }

/-- A defender at Manhattan distance 2 from `aliceB`. -/
def farBob : Player := { player_init "Bob" 99 99 99 0 with position := (0, 2), hp := 50 }

/-- State whose two players are out of melee range. -/
def stFar : TickState :=
  { currentTick := 0, duelActive := true, players := [aliceB, farBob], events := [], rngIdx := 0 }

/-- A defender adjacent to `aliceB`. -/
def bobNear : Player := { player_init "Bob" 99 99 99 0 with position := (0, 1), hp := 50 }

/-- State whose two players are adjacent (used for a genuine miss). -/
def stMiss : TickState :=
  { currentTick := 0, duelActive := true, players := [aliceB, bobNear], events := [], rngIdx := 0 }

/-- Entropy stream whose float draws are all 19/20: an accuracy roll that
misses even the flat 0.9 check. -/
def rngMiss : Rng := { floats := fun _ => 19 / 20, ints := fun _ => 0 }

/-- A defender who is already eliminated (hp = -15). -/
def deadBob : Player := { player_init "Bob" 99 99 99 0 with position := (0, 1), hp := -15 }

/-- State in which the registered target of `atkB` is already dead. -/
def stDead : TickState :=
  { currentTick := 0, duelActive := true, players := [aliceB, deadBob], events := [], rngIdx := 0 }

/-- `aliceB` with a positive cooldown (mid-cooldown attacker). -/
def aliceCd : Player := { aliceB with cooldown := 3 }

/-- State with a mid-cooldown attacker adjacent to a live defender and one due
attack queued. -/
def stCd : TickState :=
  { currentTick := 0, duelActive := true, players := [aliceCd, bobNear], events := [],
    rngIdx := 0 }

/-- The damage `resolve_attack` deals on a successful accuracy roll:
`max(3, int((strength // 7 + randint(0, 5)) * (1 - defense / 400)))`, reading
the variance draw at stream index `k + 1`. -/
def hit_damage (rng : Rng) (k : Nat) (a d : Player) : ℤ :=
  max 3 (pyInt (((a.strength.fdiv 7 + pyRandint rng (k + 1) 0 5 : ℤ) : ℚ) *
    (1 - (d.defense : ℚ) / 400)))

/-- The per-tick poison magnitude scheduled by `apply_special_effects`:
`max(1, int(damage * 0.2))`. -/
def poison_magnitude (dmg : ℤ) : ℤ :=
  max 1 (pyInt ((dmg : ℚ) * (1 / 5)))

section Proofs

/- Batteries marks the rational-number operations `@[irreducible]`, which
blocks compile-time evaluation of the embedded combat arithmetic on concrete
scenarios; restore default reducibility for the scope of the proofs. -/
attribute [local semireducible] Rat.mul Rat.add Rat.sub Rat.inv Rat.ofScientific

set_option maxRecDepth 100000

/-! ### Helper lemmas -/

/-- Writing back the value a list already holds at an index is the identity. -/
theorem list_set_self {α : Type} (l : List α) (i : Nat) (a : α) (h : l[i]? = some a) :
    l.set i a = l := by
  induction l generalizing i with
  | nil => simp at h
  | cons x xs ih =>
    cases i with
    | zero =>
      simp only [List.getElem?_cons_zero, Option.some.injEq] at h
      simp [List.set, h]
    | succ n =>
      simp only [List.getElem?_cons_succ] at h
      simp [List.set, ih n h]

/-- The defensive effect pipeline never touches the scheduled-effect list. -/
theorem applyDefensive_scheduled (rng : Rng) (s : EffectsState) (l : List SpecialEffect) :
    (applyDefensive rng s l).scheduled = s.scheduled := by
  induction l generalizing s with
  | nil => rfl
  | cons e rest ih =>
    simp only [applyDefensive]
    split
    · split
      · rfl
      · exact ih _
    · split
      · split
        · exact ih _
        · exact ih _
      · exact ih _

/-- `resolve_attack` never deals negative damage. -/
theorem resolve_attack_damage_nonneg (rng : Rng) (i : Nat) (a d : Player) :
    0 ≤ (resolve_attack rng i a d).damage := by
  simp only [resolve_attack]
  split
  · exact le_refl 0
  · split
    · split
      · exact le_trans (by norm_num) (le_max_left 3 _)
      · exact le_refl 0
    · exact le_refl 0

/-! ### C1 -/

/-- C1 counterexample: in Scenario B (defender at hp 5 takes a resolved raw
damage of 20 with no special effects) the defender's hp at the end of the tick
is -15, not 0, so the invariant `0 ≤ hp` fails. -/
theorem C1_counterexample :
    ((process_tick rngB stB).toOption.bind (fun s => (s.players[1]?).map Player.hp))
      = some (-15) ∧ ¬ (0 : ℤ) ≤ -15 := by
  exact ⟨by decide, by decide⟩

/-- C1 amended: damage is subtracted from the defender's hp with no floor at
0, so hp can end a tick negative; `resolve_attack` never increases the
defender's hp, and in Scenario B the defender at hp 5 taking resolved raw
damage 20 ends the tick at hp = -15 while the duel transitions to Ended with
the defender as loser. -/
theorem C1_amended :
    (∀ (rng : Rng) (i : Nat) (a d : Player),
      (resolve_attack rng i a d).defender.hp ≤ d.hp) ∧
    ((process_tick rngB stB).toOption.map
      (fun s => ((s.players[1]?).map Player.hp, s.duelActive, s.events.map Event.message)))
      = some (some (-15), false,
          ["Alice attacks Bob for 20 damage",
           "Alice has a significant health advantage!",
           "Alice has defeated Bob!"]) := by
  constructor
  · intro rng i a d
    have h := resolve_attack_damage_nonneg rng i a d
    revert h
    simp only [resolve_attack]
    split
    · intro _; exact le_refl _
    · split
      · intro h; exact sub_le_self _ h
      · intro _; exact le_refl _
  · decide

/-! ### C2 -/

/-- Evaluating the offensive effect step on a `poison_chance` effect whose
roll succeeds: the only state changes are the consumed draw, the three
scheduled poison entries, and the triggered record. -/
theorem offensiveStep_poison (rng : Rng) (t : ℤ) (s : EffectsState)
    (hroll : rng.floats s.rngIdx < 1) :
    offensiveStep rng t s { effect := "poison_chance", value := 100 } =
      { s with
        rngIdx := s.rngIdx + 1
        scheduled := s.scheduled ++
          [{ target := s.defender.name, source := s.attacker.name, kind := "poison",
             magnitude := poison_magnitude s.damage, triggerTick := t + 1 },
           { target := s.defender.name, source := s.attacker.name, kind := "poison",
             magnitude := poison_magnitude s.damage, triggerTick := t + 2 },
           { target := s.defender.name, source := s.attacker.name, kind := "poison",
             magnitude := poison_magnitude s.damage, triggerTick := t + 3 }]
        triggered := s.triggered ++
          [{ type := "poison", actor := s.attacker.name,
             target := some s.defender.name, amount := some 3,
             message := s.defender.name ++ " is poisoned!" }] } := by
  have h100 : (100 : ℚ) / 100 = 1 := by norm_num
  simp only [offensiveStep]
  rw [if_neg (by decide)]
  rw [if_neg (fun h => absurd h.1 (by decide))]
  rw [if_neg (by decide)]
  simp only [if_true]
  rw [h100, if_pos hroll]
  simp only [poison_magnitude, List.range_succ, List.range_zero, List.nil_append,
    List.map_append, List.map_cons, List.map_nil, List.append_assoc, List.cons_append,
    Nat.cast_zero, Nat.cast_one, Nat.cast_ofNat, add_zero]
  norm_num
  omega

/-- The one poison scheduled effect applied to a live target drops its hp by
the magnitude. -/
theorem apply_poison_damage_live (attacker d' : Player) (m : ℤ) (h : 0 < d'.hp) :
    (apply_poison_damage attacker d' m).1 = { d' with hp := d'.hp - m } := by
  simp only [apply_poison_damage]
  rw [if_neg (by omega)]

/-- C2: when the attacker's equipment grants exactly `poison_chance: 100` and
the trigger roll is a genuine uniform draw (< 1), the special-effects pass of
every resolved attack schedules a poison effect for each of the next 3
consecutive ticks — all with the one positive magnitude
`max(1, int(damage * 0.2))` — and schedules nothing for tick t+4; applying a
scheduled poison to a live target drops its hp by exactly that magnitude, and
applying all three drops it by exactly three times the magnitude. -/
theorem C2_poison_three_ticks (rng : Rng) (i : Nat) (attacker defender : Player)
    (dmg t : ℤ)
    (heff : get_special_effects attacker = [{ effect := "poison_chance", value := 100 }])
    (hroll : rng.floats i < 1) :
    (apply_special_effects rng i attacker defender dmg t).scheduled =
      [{ target := defender.name, source := attacker.name, kind := "poison",
         magnitude := poison_magnitude dmg, triggerTick := t + 1 },
       { target := defender.name, source := attacker.name, kind := "poison",
         magnitude := poison_magnitude dmg, triggerTick := t + 2 },
       { target := defender.name, source := attacker.name, kind := "poison",
         magnitude := poison_magnitude dmg, triggerTick := t + 3 }] ∧
    (∀ e ∈ (apply_special_effects rng i attacker defender dmg t).scheduled,
      e.triggerTick ≠ t + 4) ∧
    0 < poison_magnitude dmg ∧
    (∀ d' : Player, 0 < d'.hp →
      (apply_poison_damage attacker d' (poison_magnitude dmg)).1.hp =
        d'.hp - poison_magnitude dmg) ∧
    (∀ d' : Player, 2 * poison_magnitude dmg < d'.hp →
      ((apply_poison_damage attacker
        ((apply_poison_damage attacker
          ((apply_poison_damage attacker d' (poison_magnitude dmg)).1)
          (poison_magnitude dmg)).1)
        (poison_magnitude dmg)).1).hp = d'.hp - 3 * poison_magnitude dmg) := by
  have hm : 0 < poison_magnitude dmg :=
    lt_of_lt_of_le zero_lt_one (le_max_left 1 _)
  have hsched : (apply_special_effects rng i attacker defender dmg t).scheduled =
      [{ target := defender.name, source := attacker.name, kind := "poison",
         magnitude := poison_magnitude dmg, triggerTick := t + 1 },
       { target := defender.name, source := attacker.name, kind := "poison",
         magnitude := poison_magnitude dmg, triggerTick := t + 2 },
       { target := defender.name, source := attacker.name, kind := "poison",
         magnitude := poison_magnitude dmg, triggerTick := t + 3 }] := by
    simp only [apply_special_effects, heff, List.foldl_cons, List.foldl_nil,
      applyDefensive_scheduled]
    rw [offensiveStep_poison rng t _ hroll]
    simp
  refine ⟨hsched, ?_, hm, ?_, ?_⟩
  · intro e he
    rw [hsched] at he
    simp only [List.mem_cons, List.not_mem_nil, or_false] at he
    rcases he with h | h | h
    · subst h; intro hc; exact absurd (show t + 1 = t + 4 from hc) (by omega)
    · subst h; intro hc; exact absurd (show t + 2 = t + 4 from hc) (by omega)
    · subst h; intro hc; exact absurd (show t + 3 = t + 4 from hc) (by omega)
  · intro d' hd'
    rw [apply_poison_damage_live attacker d' _ hd']
  · intro d' hd'
    rw [apply_poison_damage_live attacker d' _ (by omega)]
    rw [apply_poison_damage_live attacker
      { d' with hp := d'.hp - poison_magnitude dmg } _
      (show (0 : ℤ) < d'.hp - poison_magnitude dmg by omega)]
    rw [apply_poison_damage_live attacker
      { d' with hp := d'.hp - poison_magnitude dmg - poison_magnitude dmg } _
      (show (0 : ℤ) < d'.hp - poison_magnitude dmg - poison_magnitude dmg by omega)]
    show d'.hp - poison_magnitude dmg - poison_magnitude dmg - poison_magnitude dmg =
      d'.hp - 3 * poison_magnitude dmg
    omega

/-- C2 witness: the poison-weapon attacker `aP` at damage 10, tick 5, draw 1/2
schedules exactly ticks 6, 7, 8 at magnitude 2, and the drops happen. -/
theorem C2_poison_three_ticks_witness :
    (apply_special_effects rngB 0 aP dP 10 5).scheduled =
      [{ target := dP.name, source := aP.name, kind := "poison",
         magnitude := poison_magnitude 10, triggerTick := 5 + 1 },
       { target := dP.name, source := aP.name, kind := "poison",
         magnitude := poison_magnitude 10, triggerTick := 5 + 2 },
       { target := dP.name, source := aP.name, kind := "poison",
         magnitude := poison_magnitude 10, triggerTick := 5 + 3 }] ∧
    (∀ e ∈ (apply_special_effects rngB 0 aP dP 10 5).scheduled,
      e.triggerTick ≠ 5 + 4) ∧
    0 < poison_magnitude 10 ∧
    (∀ d' : Player, 0 < d'.hp →
      (apply_poison_damage aP d' (poison_magnitude 10)).1.hp =
        d'.hp - poison_magnitude 10) ∧
    (∀ d' : Player, 2 * poison_magnitude 10 < d'.hp →
      ((apply_poison_damage aP
        ((apply_poison_damage aP
          ((apply_poison_damage aP d' (poison_magnitude 10)).1)
          (poison_magnitude 10)).1)
        (poison_magnitude 10)).1).hp = d'.hp - 3 * poison_magnitude 10) :=
  C2_poison_three_ticks rngB 0 aP dP 10 5 (by decide) (by norm_num [rngB])

/-! ### C3 -/

/-- In range and off cooldown, `resolve_attack`'s damage is determined by the
flat 0.9 accuracy roll and the strength/variance/defense formula. -/
theorem resolve_attack_damage_eq (rng : Rng) (i : Nat) (a d : Player)
    (hrange : |a.position.1 - d.position.1| + |a.position.2 - d.position.2| ≤ 1)
    (hcd : a.cooldown = 0) :
    (resolve_attack rng i a d).damage =
      if rng.floats i < 9 / 10 then
        max 3 (pyInt (((a.strength.fdiv 7 + pyRandint rng (i + 1) 0 5 : ℤ) : ℚ) *
          (1 - (d.defense : ℚ) / 400)))
      else 0 := by
  simp only [resolve_attack]
  rw [if_neg (not_lt.mpr hrange), if_pos hcd]

/-- C3 counterexample: with identical effective stats attack 99 / defense 99
the claimed hit chance is min(0.9, 99/198) = 1/2, yet at draw 7/10 (≥ 1/2) the
resolver actually used by the scheduler registers a hit for damage 10 — the
hit roll does not use the documented formula. -/
theorem C3_counterexample :
    (resolve_attack rngC3 0 a3 d3).damage = 10 ∧
    (resolve_attack rngC3 0 a3 d3).defender.hp = d3.hp - 10 ∧
    a3.effectiveStats.attack = 99 ∧ d3.effectiveStats.defense = 99 ∧
    rngC3.floats 0 = 7 / 10 ∧
    ¬ ((7 : ℚ) / 10 < min (9 / 10) ((99 : ℚ) / (99 + 99))) := by
  exact ⟨by decide, by decide, by decide, by decide, rfl, by decide⟩

/-- C3 amended: `resolve_attack` (the resolver the scheduler calls) hits iff
the uniform draw is < 0.9, regardless of stats; the documented formula
`min(0.9, attack/(attack+defense))` appears only in `calculate_base_damage`
(not wired into the tick loop), which misses iff the draw strictly exceeds the
hit chance — i.e. hits on draw ≤ hit_chance, not draw < hit_chance. -/
theorem C3_amended (rng : Rng) (i : Nat) (a d : Player)
    (hrange : |a.position.1 - d.position.1| + |a.position.2 - d.position.2| ≤ 1)
    (hcd : a.cooldown = 0) :
    ((resolve_attack rng i a d).damage > 0 ↔ rng.floats i < 9 / 10) ∧
    (rng.floats i >
        min (9 / 10 : ℚ) ((a.effectiveStats.attack : ℚ) /
          ((a.effectiveStats.attack : ℚ) + (d.effectiveStats.defense : ℚ))) →
      calculate_base_damage rng i a d = (0, i + 1)) ∧
    (¬ rng.floats i >
        min (9 / 10 : ℚ) ((a.effectiveStats.attack : ℚ) /
          ((a.effectiveStats.attack : ℚ) + (d.effectiveStats.defense : ℚ))) →
      calculate_base_damage rng i a d =
        (pyRandint rng (i + 1) 0 (pyInt (1 + (a.effectiveStats.strength : ℚ) / 10)),
          i + 2)) := by
  refine ⟨?_, ?_, ?_⟩
  · rw [resolve_attack_damage_eq rng i a d hrange hcd]
    by_cases hr : rng.floats i < 9 / 10
    · rw [if_pos hr]
      simp only [hr, iff_true]
      exact lt_of_lt_of_le (by norm_num) (le_max_left 3 _)
    · rw [if_neg hr]
      simp [hr]
  · intro h
    simp only [calculate_base_damage]
    rw [if_pos h]
  · intro h
    simp only [calculate_base_damage]
    rw [if_neg h]

/-- C3 witness: the amended statement at the Scenario-A players and draw 7/10. -/
theorem C3_amended_witness :
    ((resolve_attack rngC3 0 a3 d3).damage > 0 ↔ rngC3.floats 0 < 9 / 10) ∧
    (rngC3.floats 0 >
        min (9 / 10 : ℚ) ((a3.effectiveStats.attack : ℚ) /
          ((a3.effectiveStats.attack : ℚ) + (d3.effectiveStats.defense : ℚ))) →
      calculate_base_damage rngC3 0 a3 d3 = (0, 0 + 1)) ∧
    (¬ rngC3.floats 0 >
        min (9 / 10 : ℚ) ((a3.effectiveStats.attack : ℚ) /
          ((a3.effectiveStats.attack : ℚ) + (d3.effectiveStats.defense : ℚ))) →
      calculate_base_damage rngC3 0 a3 d3 =
        (pyRandint rngC3 (0 + 1) 0 (pyInt (1 + (a3.effectiveStats.strength : ℚ) / 10)),
          0 + 2)) :=
  C3_amended rngC3 0 a3 d3 (by decide) (by decide)

/-! ### C4 -/

/-- C4: the engine is a pure function of the entropy stream, the action
policy, and the initial configuration — two runs with a fixed seed and
identical inputs produce identical event logs. -/
theorem C4_determinism (rng1 rng2 : Rng) (pol1 pol2 : ℤ → TickState → List (Nat × Action))
    (fuel1 fuel2 : Nat) (t1 t2 : ℤ) (st1 st2 : TickState)
    (hrng : rng1 = rng2) (hpol : pol1 = pol2) (hfuel : fuel1 = fuel2)
    (ht : t1 = t2) (hst : st1 = st2) :
    (run_duel rng1 pol1 fuel1 t1 st1).map TickState.events =
      (run_duel rng2 pol2 fuel2 t2 st2).map TickState.events := by
  subst hrng hpol hfuel ht hst
  rfl

/-- C4 witness: two one-tick Scenario-B runs with the same stream, policy and
state have equal logs. -/
theorem C4_determinism_witness :
    (run_duel rngB (fun _ _ => []) 1 0 stB).map TickState.events =
      (run_duel rngB (fun _ _ => []) 1 0 stB).map TickState.events :=
  C4_determinism rngB rngB (fun _ _ => []) (fun _ _ => []) 1 1 0 0 stB stB
    rfl rfl rfl rfl rfl

/-! ### C5 -/

/-- C5 counterexample: executing an attack at Manhattan distance 2 appends to
the event log exactly the same generic "for 0 damage" entry that a genuine
miss appends — no distinct too-far event is recorded in the log; the distinct
too-far text exists only as console output of `resolve_attack`. -/
theorem C5_counterexample :
    (execute_action rngB stFar 0 atkB).toOption.map TickState.events =
      some [{ tick := 0, message := "Alice attacks Bob for 0 damage" }] ∧
    (execute_action rngMiss stMiss 0 atkB).toOption.map TickState.events =
      some [{ tick := 0, message := "Alice attacks Bob for 0 damage" }] ∧
    (resolve_attack rngB 0 aliceB farBob).printed =
      ["Alice is too far from Bob to attack"] ∧
    "Alice is too far from Bob to attack" ≠ "Alice misses Bob" ∧
    (execute_action rngB stFar 0 atkB).toOption.map
        (fun s => s.players.map Player.cooldown) = some [0, 0] := by
  exact ⟨by decide, by decide, by decide, by decide, by decide⟩

/-- C5 amended: an attack at Manhattan distance > 1 returns damage 0, leaves
both players — in particular the attacker's cooldown — unchanged, consumes no
randomness, and prints a "too far" console message distinct from the miss
message; but no distinct too-far event is recorded in the event log: the
scheduler appends only the generic "attacks ... for 0 damage" entry. -/
theorem C5_amended (rng : Rng) (st : TickState) (i j : Nat) (a d : Player) (act : Action)
    (hi : st.players[i]? = some a) (hj : st.players[j]? = some d)
    (htype : act.type = "attack") (htgt : act.target = some j)
    (hfar : |a.position.1 - d.position.1| + |a.position.2 - d.position.2| > 1) :
    resolve_attack rng st.rngIdx a d =
      { damage := 0, attacker := a, defender := d,
        printed := [a.name ++ " is too far from " ++ d.name ++ " to attack"],
        rngIdx := st.rngIdx } ∧
    execute_action rng st i act =
      .ok (log_event st
        (a.name ++ " attacks " ++ d.name ++ " for " ++ toString (0 : ℤ) ++ " damage")) ∧
    "Alice is too far from Bob to attack" ≠ "Alice misses Bob" := by
  have hres : resolve_attack rng st.rngIdx a d =
      { damage := 0, attacker := a, defender := d,
        printed := [a.name ++ " is too far from " ++ d.name ++ " to attack"],
        rngIdx := st.rngIdx } := by
    simp only [resolve_attack]
    rw [if_pos hfar]
  refine ⟨hres, ?_, by decide⟩
  simp only [execute_action, hi, htype, htgt, hj, hres,
    list_set_self st.players i a hi, list_set_self st.players j d hj]
  simp only [true_or, if_true]

/-- C5 witness: the amended statement at the distance-2 configuration. -/
theorem C5_amended_witness :
    resolve_attack rngB stFar.rngIdx aliceB farBob =
      { damage := 0, attacker := aliceB, defender := farBob,
        printed := [aliceB.name ++ " is too far from " ++ farBob.name ++ " to attack"],
        rngIdx := stFar.rngIdx } ∧
    execute_action rngB stFar 0 atkB =
      .ok (log_event stFar
        (aliceB.name ++ " attacks " ++ farBob.name ++ " for " ++ toString (0 : ℤ) ++
          " damage")) ∧
    "Alice is too far from Bob to attack" ≠ "Alice misses Bob" :=
  C5_amended rngB stFar 0 1 aliceB farBob atkB (by decide) (by decide)
    (by decide) (by decide) (by decide)

/-! ### C6 -/

/-- In range, off cooldown and with a winning accuracy roll, `resolve_attack`
deals `hit_damage`, subtracts it from the defender, puts the attacker on
cooldown and prints the hit message. -/
theorem resolve_attack_hit (rng : Rng) (k : Nat) (a d : Player)
    (hrange : |a.position.1 - d.position.1| + |a.position.2 - d.position.2| ≤ 1)
    (hcd : a.cooldown = 0) (hhit : rng.floats k < 9 / 10) :
    resolve_attack rng k a d =
      { damage := hit_damage rng k a d,
        attacker := { a with cooldown := a.weaponSpeed },
        defender := { d with hp := d.hp - hit_damage rng k a d },
        printed := [a.name ++ " hits " ++ toString (hit_damage rng k a d) ++
          " on " ++ d.name],
        rngIdx := k + 2 } := by
  have hpos : (0 : ℤ) < hit_damage rng k a d :=
    lt_of_lt_of_le (by norm_num) (le_max_left 3 _)
  simp only [resolve_attack, hit_damage] at hpos ⊢
  rw [if_neg (not_lt.mpr hrange), if_pos hcd, if_pos hhit, if_pos hpos]

/-- `hit_damage` is strictly positive. -/
theorem hit_damage_pos (rng : Rng) (k : Nat) (a d : Player) :
    0 < hit_damage rng k a d :=
  lt_of_lt_of_le (by norm_num) (le_max_left 3 _)

/-- C6 counterexample: an attack action with a missing target raises an
`AttributeError` inside the run loop (modelled as an error result), and an
attack on a registered target that is already dead (hp = -15) is executed as a
normal attack, dropping the target to hp = -35 — neither is a logged no-op. -/
theorem C6_counterexample :
    execute_action rngB stDead 0 atkNone =
      .error "AttributeError: NoneType object has no attribute position" ∧
    (execute_action rngB stDead 0 atkB).toOption.bind
      (fun s => (s.players[1]?).map Player.hp) = some (-35) := by
  exact ⟨by rfl, by decide⟩

/-- C6 amended: an attack action whose target reference is missing raises an
`AttributeError` when the resolver dereferences it (no informational event, not
a no-op); an attack action on a registered target whose hp is already ≤ 0 is
executed as a normal attack — on a hit it deals positive damage and drives the
target's hp further negative — rather than being skipped. -/
theorem C6_amended (rng : Rng) (st : TickState) (i : Nat) (act : Action) (p : Player)
    (hp : st.players[i]? = some p)
    (htype : act.type = "attack") :
    (act.target = none →
      execute_action rng st i act =
        .error "AttributeError: NoneType object has no attribute position") ∧
    (∀ (j : Nat) (d : Player), act.target = some j → st.players[j]? = some d →
      d.hp ≤ 0 →
      |p.position.1 - d.position.1| + |p.position.2 - d.position.2| ≤ 1 →
      p.cooldown = 0 → rng.floats st.rngIdx < 9 / 10 →
      ∃ st', execute_action rng st i act = .ok st' ∧
        (st'.players[j]?).map Player.hp =
          some (d.hp - (resolve_attack rng st.rngIdx p d).damage) ∧
        (resolve_attack rng st.rngIdx p d).damage > 0) := by
  constructor
  · intro ht
    simp only [execute_action, hp, htype, ht]
    simp only [true_or, if_true]
  · intro j d htgt hj hdead hrange hcd hhit
    have hres := resolve_attack_hit rng st.rngIdx p d hrange hcd hhit
    have hjlen : j < st.players.length := by
      rcases List.getElem?_eq_some.mp hj with ⟨h, _⟩
      exact h
    have hex : execute_action rng st i act =
        .ok (log_event
          { st with
            players := (st.players.set i { p with cooldown := p.weaponSpeed }).set j
              { d with hp := d.hp - hit_damage rng st.rngIdx p d }
            rngIdx := st.rngIdx + 2 }
          (p.name ++ " attacks " ++ d.name ++ " for " ++
            toString (hit_damage rng st.rngIdx p d) ++ " damage")) := by
      simp only [execute_action, hp, htype, htgt, hj, hres]
      simp only [true_or, if_true]
    refine ⟨_, hex, ?_, ?_⟩
    · have hgot : ((st.players.set i { p with cooldown := p.weaponSpeed }).set j
          { d with hp := d.hp - hit_damage rng st.rngIdx p d })[j]? =
          some { d with hp := d.hp - hit_damage rng st.rngIdx p d } := by
        rw [List.getElem?_set_self]
        rwa [List.length_set]
      simp only [log_event]
      rw [hgot, hres]
      rfl
    · rw [hres]
      exact hit_damage_pos rng st.rngIdx p d

/-- C6 witness: the amended statement at the dead-target state `stDead`. -/
theorem C6_amended_witness :
    (atkNone.target = none →
      execute_action rngB stDead 0 atkNone =
        .error "AttributeError: NoneType object has no attribute position") ∧
    (∀ (j : Nat) (d : Player), atkNone.target = some j → stDead.players[j]? = some d →
      d.hp ≤ 0 →
      |aliceB.position.1 - d.position.1| + |aliceB.position.2 - d.position.2| ≤ 1 →
      aliceB.cooldown = 0 → rngB.floats stDead.rngIdx < 9 / 10 →
      ∃ st', execute_action rngB stDead 0 atkNone = .ok st' ∧
        (st'.players[j]?).map Player.hp =
          some (d.hp - (resolve_attack rngB stDead.rngIdx aliceB d).damage) ∧
        (resolve_attack rngB stDead.rngIdx aliceB d).damage > 0) :=
  C6_amended rngB stDead 0 atkNone aliceB (by decide) (by decide)

/-! ### C7 -/

/-- `popFirstDue` decomposition: when it finds a due action, the queue splits
as `l1 ++ a :: l2` with every entry of `l1` not yet due, and the returned
queue is `l1 ++ l2` — one entry removed, every other entry kept in order. -/
theorem popFirstDue_eq_some (q : List Action) (t : ℤ) (a : Action) (q' : List Action)
    (h : popFirstDue q t = (some a, q')) :
    ∃ l1 l2, q = l1 ++ a :: l2 ∧ q' = l1 ++ l2 ∧
      (∀ b ∈ l1, ¬ b.executeOn ≤ t) ∧ a.executeOn ≤ t := by
  induction q generalizing q' with
  | nil => simp [popFirstDue] at h
  | cons x rest ih =>
    by_cases hx : x.executeOn ≤ t
    · rw [popFirstDue, if_pos hx] at h
      simp only [Prod.mk.injEq, Option.some.injEq] at h
      obtain ⟨rfl, rfl⟩ := h
      exact ⟨[], rest, rfl, rfl, by simp, hx⟩
    · rw [popFirstDue, if_neg hx] at h
      rcases hpd : popFirstDue rest t with ⟨r1, r2⟩
      rw [hpd] at h
      simp only [Prod.mk.injEq] at h
      obtain ⟨rfl, rfl⟩ := h
      obtain ⟨l1, l2, hq, hq', hl1, ha⟩ := ih _ hpd
      refine ⟨x :: l1, l2, by rw [hq]; rfl, by rw [hq']; rfl, ?_, ha⟩
      intro b hb
      rcases List.mem_cons.mp hb with rfl | hb
      · exact hx
      · exact hl1 b hb

/-- C7 counterexample: with two actions both due at tick 0 queued, only the
first is popped; the second due action is retained in the queue — not
discarded and not logged (`is_action_ready` emits nothing) — and it is still
poppable on the next call. -/
theorem C7_counterexample :
    is_action_ready p7 0 =
      (true, { p7 with actionQueue := [act2], nextAction := some act1 }) ∧
    act1.executeOn ≤ 0 ∧ act2.executeOn ≤ 0 ∧
    (is_action_ready { p7 with actionQueue := [act2], nextAction := some act1 } 0).1
      = true := by
  exact ⟨by decide, by decide, by decide, by decide⟩

/-- C7 amended: `is_action_ready` pops exactly the earliest-inserted due
action (everything queued before it is not yet due) into `next_action`,
removing exactly one entry; the remaining actions — including any other due
ones — stay in the queue in order, neither discarded nor logged. -/
theorem C7_amended (p : Player) (t : ℤ) (p' : Player)
    (h : is_action_ready p t = (true, p')) :
    ∃ a l1 l2,
      p.actionQueue = l1 ++ a :: l2 ∧
      p'.actionQueue = l1 ++ l2 ∧
      p'.nextAction = some a ∧
      a.executeOn ≤ t ∧
      (∀ b ∈ l1, ¬ b.executeOn ≤ t) ∧
      p'.actionQueue.length + 1 = p.actionQueue.length := by
  rcases hpd : popFirstDue p.actionQueue t with ⟨r1, r2⟩
  cases r1 with
  | none =>
    rw [is_action_ready, hpd] at h
    simp at h
  | some a =>
    rw [is_action_ready, hpd] at h
    simp only [Prod.mk.injEq] at h
    obtain ⟨-, hp'⟩ := h
    subst hp'
    obtain ⟨l1, l2, hq, hq', hl1, ha⟩ := popFirstDue_eq_some _ _ _ _ hpd
    refine ⟨a, l1, l2, hq, hq', rfl, ha, hl1, ?_⟩
    show r2.length + 1 = p.actionQueue.length
    rw [hq, hq']
    simp only [List.length_append, List.length_cons]
    omega

/-- C7 witness: the amended statement at the double-queued player `p7`. -/
theorem C7_amended_witness :
    ∃ a l1 l2,
      p7.actionQueue = l1 ++ a :: l2 ∧
      ({ p7 with actionQueue := [act2], nextAction := some act1 } : Player).actionQueue
        = l1 ++ l2 ∧
      ({ p7 with actionQueue := [act2], nextAction := some act1 } : Player).nextAction
        = some a ∧
      a.executeOn ≤ 0 ∧
      (∀ b ∈ l1, ¬ b.executeOn ≤ 0) ∧
      ({ p7 with actionQueue := [act2], nextAction := some act1 } : Player).actionQueue.length
          + 1 = p7.actionQueue.length :=
  C7_amended p7 0 { p7 with actionQueue := [act2], nextAction := some act1 } (by decide)

/-! ### C8 -/

/-- After writing a value into a slot that exists, looking the slot up returns
the new value. -/
theorem lookup_setSlot (eq : List (String × Option Item)) (s : String) (v w : Option Item)
    (h : eq.lookup s = some w) :
    (setSlot eq s v).lookup s = some v := by
  induction eq with
  | nil => simp at h
  | cons kv rest ih =>
    rcases kv with ⟨k, w'⟩
    by_cases hk : k = s
    · subst hk
      simp [setSlot]
    · have hbs : (s == k) = false := beq_eq_false_iff_ne.mpr (fun he => hk he.symm)
      rw [List.lookup_cons, hbs] at h
      simp only [setSlot, List.map_cons, if_neg hk]
      rw [List.lookup_cons, hbs]
      simp only [setSlot] at ih
      exact ih h

/-- Writing to a slot key that does not occur leaves the mapping unchanged. -/
theorem setSlot_id_of_not_mem (eq : List (String × Option Item)) (s : String)
    (v : Option Item) (h : s ∉ eq.map Prod.fst) :
    setSlot eq s v = eq := by
  induction eq with
  | nil => rfl
  | cons kv rest ih =>
    simp only [List.map_cons, List.mem_cons, not_or] at h
    simp only [setSlot, List.map_cons] at ih ⊢
    rw [if_neg (fun he => h.1 he.symm), ih h.2]

/-- Writing twice to the same slot keeps only the second write. -/
theorem setSlot_setSlot (eq : List (String × Option Item)) (s : String)
    (v w : Option Item) :
    setSlot (setSlot eq s v) s w = setSlot eq s w := by
  induction eq with
  | nil => rfl
  | cons kv rest ih =>
    by_cases hk : kv.1 = s
    · simp only [setSlot, List.map_cons, if_pos hk] at ih ⊢
      rw [ih]
    · simp only [setSlot, List.map_cons, if_neg hk] at ih ⊢
      rw [ih]

/-- Clearing a slot that is already empty (under distinct slot keys, as in the
dict-backed equipment mapping) is the identity. -/
theorem setSlot_none_of_lookup_none (eq : List (String × Option Item)) (s : String)
    (hnd : (eq.map Prod.fst).Nodup) (h : eq.lookup s = some none) :
    setSlot eq s none = eq := by
  induction eq with
  | nil => rfl
  | cons kv rest ih =>
    rcases kv with ⟨k, w⟩
    simp only [List.map_cons, List.nodup_cons] at hnd
    by_cases hk : k = s
    · subst hk
      have hw : w = none := by
        rw [List.lookup_cons_self] at h
        simpa using h
      subst hw
      simp only [setSlot, List.map_cons, if_pos rfl]
      have : setSlot rest k none = rest :=
        setSlot_id_of_not_mem rest k none hnd.1
      simp only [setSlot] at this
      rw [this]
      simp
    · have hbs : (s == k) = false := beq_eq_false_iff_ne.mpr (fun he => hk he.symm)
      rw [List.lookup_cons, hbs] at h
      simp only [setSlot, List.map_cons, if_neg hk] at ih ⊢
      rw [ih hnd.2 h]

/-- C8 counterexample: equip Sword A (+5 attack, weapon slot, effective attack
75), then equip Sword B (+3) into the same occupied slot and unequip it —
effective attack is 70, not the pre-equip 75: the replaced item is lost, so
equip-then-unequip does not restore `effective_stats`. -/
theorem C8_counterexample :
    p1.effectiveStats.attack = 75 ∧
    p2 = (equip_item p1 itemB8).1 ∧
    p2.effectiveStats.attack = 73 ∧
    p3 = (unequip_item p2 "weapon").1 ∧
    itemB8.slot = "weapon" ∧
    p3.effectiveStats.attack = 70 ∧
    p3.effectiveStats ≠ p1.effectiveStats := by
  exact ⟨by decide, rfl, by decide, rfl, rfl, by decide, by decide⟩

/-- C8 amended: `effective_stats` is recomputed from `base_stats` plus the
equipped item deltas immediately on every equip/unequip; equipping an item
into an **empty** slot and then unequipping that slot restores
`effective_stats` to its exact pre-equip value.  (When the slot is occupied,
equip silently replaces the old item and the restoration fails.) -/
theorem C8_amended (p : Player) (item : Item)
    (hempty : p.equipment.lookup item.slot = some none)
    (hnd : (p.equipment.map Prod.fst).Nodup)
    (hinv : p.effectiveStats = computeEffectiveStats p.baseStats p.equipment) :
    (equip_item p item).2 = true ∧
    (equip_item p item).1.effectiveStats =
      computeEffectiveStats p.baseStats
        (setSlot p.equipment item.slot (some item)) ∧
    ((unequip_item (equip_item p item).1 item.slot).1).effectiveStats =
      p.effectiveStats := by
  have hsome : (p.equipment.lookup item.slot).isSome := by rw [hempty]; rfl
  have hequip : equip_item p item =
      (update_effective_stats
        { p with equipment := setSlot p.equipment item.slot (some item) }, true) := by
    simp only [equip_item, if_pos hsome]
  have hlook : (setSlot p.equipment item.slot (some item)).lookup item.slot
      = some (some item) :=
    lookup_setSlot p.equipment item.slot (some item) none hempty
  refine ⟨by rw [hequip], by rw [hequip]; rfl, ?_⟩
  rw [hequip]
  simp only [unequip_item, update_effective_stats]
  rw [hlook]
  simp only []
  rw [setSlot_setSlot, setSlot_none_of_lookup_none p.equipment item.slot hnd hempty]
  exact hinv.symm

/-- C8 witness: the amended statement for the fresh player `p0` (empty weapon
slot) and Sword A. -/
theorem C8_amended_witness :
    (equip_item p0 itemA).2 = true ∧
    (equip_item p0 itemA).1.effectiveStats =
      computeEffectiveStats p0.baseStats
        (setSlot p0.equipment itemA.slot (some itemA)) ∧
    ((unequip_item (equip_item p0 itemA).1 itemA.slot).1).effectiveStats =
      p0.effectiveStats :=
  C8_amended p0 itemA (by decide) (by decide) (by decide)

/-! ### C9 -/

/-- C9: Move execution is unconditional — `execute_action` sets the acting
player's position to the payload destination, whatever it is, with no
arena-bounds or occupancy check — while `get_legal_actions` only ever offers
moves to in-bounds cells not occupied by another registered player, so
movement legality exists only at action-selection time. -/
theorem C9_move_unconditional (rng : Rng) (st : TickState) (i : Nat) (p : Player)
    (act : Action) (hp : st.players[i]? = some p) (htype : act.type = "move") :
    execute_action rng st i act =
      .ok (log_event
        { st with players := st.players.set i { p with position := act.destination } }
        (p.name ++ " moved to " ++ posString act.destination)) ∧
    (∀ (r : Rules) (players : List Player) (j : Nat) (la : LegalAction),
      la ∈ get_legal_actions r players j → la.type = "move" →
      ∃ nx ny, la.destination = some (nx, ny) ∧
        0 ≤ nx ∧ nx < r.arenaWidth ∧ 0 ≤ ny ∧ ny < r.arenaHeight ∧
        (∀ (k : Nat) (q : Player), players[k]? = some q → k ≠ j →
          q.position ≠ (nx, ny))) := by
  constructor
  · simp only [execute_action, hp, htype]
    rw [if_neg (by decide)]
    simp only [if_true]
  · intro r players j la hla hmv
    simp only [get_legal_actions] at hla
    rcases hpj : players[j]? with _ | pq
    · rw [hpj] at hla
      simp at hla
    · rw [hpj] at hla
      simp only [List.mem_append] at hla
      rcases hla with (hatk | hmove) | heat
      · exfalso
        split_ifs at hatk <;> simp at hatk <;>
          first
            | (rcases hatk with rfl | rfl | rfl <;> exact absurd hmv (by decide))
            | (rcases hatk with rfl | rfl <;> exact absurd hmv (by decide))
            | (rcases hatk with rfl <;> exact absurd hmv (by decide))
      · split_ifs at hmove with hnm
        · simp at hmove
        · rw [List.mem_filterMap] at hmove
          obtain ⟨dd, hd, hf⟩ := hmove
          split_ifs at hf with hcond
          · obtain ⟨h1, h2, h3, h4, h5⟩ := hcond
            obtain rfl := Option.some.inj hf
            refine ⟨pq.position.1 + dd.1, pq.position.2 + dd.2, rfl,
              h1, h2, h3, h4, ?_⟩
            intro k q hk hkj hpos
            apply h5
            rw [← hpos]
            rw [List.mem_map]
            refine ⟨(k, q), ?_, rfl⟩
            rw [List.mem_filter]
            constructor
            · exact List.mk_mem_enum_iff_getElem?.mpr hk
            · simpa using hkj
      · exfalso
        split_ifs at heat <;> simp at heat <;>
          rcases heat with rfl <;> simp at hmv

/-- C9 witness: the move-execution and legality facts at the Scenario-B state
and the concrete move `act1`. -/
theorem C9_move_unconditional_witness :
    execute_action rngB stB 0 act1 =
      .ok (log_event
        { stB with players := stB.players.set 0 { aliceB with position := act1.destination } }
        (aliceB.name ++ " moved to " ++ posString act1.destination)) ∧
    (∀ (r : Rules) (players : List Player) (j : Nat) (la : LegalAction),
      la ∈ get_legal_actions r players j → la.type = "move" →
      ∃ nx ny, la.destination = some (nx, ny) ∧
        0 ≤ nx ∧ nx < r.arenaWidth ∧ 0 ≤ ny ∧ ny < r.arenaHeight ∧
        (∀ (k : Nat) (q : Player), players[k]? = some q → k ≠ j →
          q.position ≠ (nx, ny))) :=
  C9_move_unconditional rngB stB 0 aliceB act1 (by decide) (by decide)

/-! ### C10 -/

/-- In range but with a nonzero cooldown, `resolve_attack` is a complete
no-op: damage 0, both players unchanged, nothing printed, no RNG consumed. -/
theorem resolve_attack_cooldown_frame (rng : Rng) (k : Nat) (a d : Player)
    (hrange : |a.position.1 - d.position.1| + |a.position.2 - d.position.2| ≤ 1)
    (hcd : a.cooldown ≠ 0) :
    resolve_attack rng k a d =
      { damage := 0, attacker := a, defender := d, printed := [], rngIdx := k } := by
  simp only [resolve_attack]
  rw [if_neg (not_lt.mpr hrange), if_neg hcd]

/-- C10: an attack executed in range while the attacker's cooldown is
positive resolves to 0 damage with both players' hp, positions and cooldowns
unchanged, yet the attempt is still consumed from the queue (popped, with
`next_action` cleared) and logged as a 0-damage attack. -/
theorem C10_cooldown_blocked (rng : Rng) (st : TickState) (i j : Nat) (p d : Player)
    (act : Action) (rest : List Action)
    (hi : st.players[i]? = some p) (hj : st.players[j]? = some d) (hij : i ≠ j)
    (hq : popFirstDue p.actionQueue st.currentTick = (some act, rest))
    (htype : act.type = "attack") (htgt : act.target = some j)
    (hcd : 0 < p.cooldown)
    (hrange : |p.position.1 - d.position.1| + |p.position.2 - d.position.2| ≤ 1) :
    resolve_attack rng st.rngIdx p d =
      { damage := 0, attacker := p, defender := d, printed := [], rngIdx := st.rngIdx } ∧
    process_actions rng st i =
      .ok { st with
        players := st.players.set i { p with actionQueue := rest, nextAction := none }
        events := st.events ++
          [{ tick := st.currentTick,
             message := p.name ++ " attacks " ++ d.name ++ " for " ++
               toString (0 : ℤ) ++ " damage" }] } := by
  have hilen : i < st.players.length := by
    rcases List.getElem?_eq_some.mp hi with ⟨h, _⟩
    exact h
  have hframe := resolve_attack_cooldown_frame rng st.rngIdx p d hrange (by omega)
  constructor
  · exact hframe
  · have hready : is_action_ready p st.currentTick =
        (true, { p with actionQueue := rest, nextAction := some act }) := by
      rw [is_action_ready, hq]
    have hp' : (st.players.set i
        { p with actionQueue := rest, nextAction := some act })[i]? =
        some { p with actionQueue := rest, nextAction := some act } :=
      List.getElem?_set_self hilen
    have hd' : (st.players.set i
        { p with actionQueue := rest, nextAction := some act })[j]? = some d := by
      rw [List.getElem?_set_ne hij]
      exact hj
    have hframe' := resolve_attack_cooldown_frame rng st.rngIdx
      { p with actionQueue := rest, nextAction := some act } d hrange (by simp; omega)
    simp only [process_actions, hi, hready]
    simp only [execute_action, hp', htype, htgt, hd', hframe']
    simp only [true_or, if_true]
    rw [List.set_set, list_set_self _ j d (by rw [List.getElem?_set_ne hij]; exact hj)]
    simp only [log_event]
    rw [List.getElem?_set_self (by simpa using hilen)]
    simp only [Option.some.injEq]
    rw [List.set_set]

/-- C10 witness: a cooldown-blocked attack at a concrete two-player state. -/
theorem C10_cooldown_blocked_witness :
    resolve_attack rngB stCd.rngIdx aliceCd bobNear =
      { damage := 0, attacker := aliceCd, defender := bobNear, printed := [],
        rngIdx := stCd.rngIdx } ∧
    process_actions rngB stCd 0 =
      .ok { stCd with
        players := stCd.players.set 0
          { aliceCd with actionQueue := [], nextAction := none }
        events := stCd.events ++
          [{ tick := stCd.currentTick,
             message := aliceCd.name ++ " attacks " ++ bobNear.name ++ " for " ++
               toString (0 : ℤ) ++ " damage" }] } :=
  C10_cooldown_blocked rngB stCd 0 1 aliceCd bobNear atkB [] (by decide) (by decide)
    (by decide) (by decide) (by decide) (by decide) (by decide) (by decide)

end Proofs

end DuelCore
